import Mathlib

/-!
Verification of `src/utils/utils-win.cpp` (seafile-client): the OS-version
oracle, the per-monitor DPI resolution pipeline, and the
`fixQtHDPINonIntegerScaling` orchestrator, shallowly embedded in Lean.

Conventions of the embedding:
* The Windows `OSVERSIONINFOEX` struct and the two file-level globals
  (`osver`, `osver_failure`) become an explicit `VersionState` value that is
  threaded through the functions that touch it.
* The external OS query `GetVersionEx` is an oracle input of type
  `Option (Nat × Nat × Nat)`: `none` models a failed call (which leaves the
  zero-initialized struct untouched), `some (M, m, sp)` a successful call
  filling `dwMajorVersion`, `dwMinorVersion`, `wServicePackMajor`.
* C `unsigned` arithmetic is modelled as `Nat` with an explicit `% 2 ^ 32`
  where the source can overflow (the packed version encoding).
-/

namespace SeafileClient
namespace UtilsWin

/-- The fields of `OSVERSIONINFOEX` read by the source file.  The file-scope
`osver` variable starts out all zero (static storage duration). -/
structure OSVERSIONINFOEX where
  dwOSVersionInfoSize : Nat
  dwMajorVersion : Nat
  dwMinorVersion : Nat
  wServicePackMajor : Nat
deriving Repr, DecidableEq

/-- The two file-scope globals of the anonymous namespace:
`OSVERSIONINFOEX osver;` and `bool osver_failure = false;`. -/
structure VersionState where
  osver : OSVERSIONINFOEX
  osver_failure : Bool
deriving Repr, DecidableEq

/-- The state of the globals at process start: zeroed struct, no failure. -/
def initState : VersionState :=
  { osver := { dwOSVersionInfoSize := 0, dwMajorVersion := 0,
               dwMinorVersion := 0, wServicePackMajor := 0 },
    osver_failure := false }

/-- `sizeof(OSVERSIONINFOEX)`; only its nonzero-ness is ever observed
(`isInitializedSystemVersion` tests `dwOSVersionInfoSize != 0`). -/
def sizeofOSVERSIONINFOEX : Nat := 284

/-- `isInitializedSystemVersion`: the struct has been stamped with its size. -/
def isInitializedSystemVersion (s : VersionState) : Bool :=
  s.osver.dwOSVersionInfoSize != 0

/-- `initializeSystemVersion`: one-shot lazy initialization of the version
cache.  If already initialized, return unchanged; otherwise stamp the size
field and run the OS query: on failure (`query = none`) set `osver_failure`
and leave the zeroed version fields alone, on success fill them. -/
def initializeSystemVersion (query : Option (Nat × Nat × Nat))
    (s : VersionState) : VersionState :=
  if isInitializedSystemVersion s then s
  else
    let s1 : VersionState :=
      { s with osver := { s.osver with dwOSVersionInfoSize := sizeofOSVERSIONINFOEX } }
    match query with
    | none => { s1 with osver_failure := true }
    | some (M, m, sp) =>
      { s1 with osver :=
        { s1.osver with
          dwMajorVersion := M,
          dwMinorVersion := m,
          wServicePackMajor := sp } }

/-- The `OSVER_TO_NUM(major, minor, patch)` macro,
`(major << 20) + (minor << 10) + (patch)` on C `unsigned` (32-bit wrap). -/
def osverToNum (major minor patch : Nat) : Nat :=
  (major * 2 ^ 20 + minor * 2 ^ 10 + patch) % 2 ^ 32

/-- `_isAtLeastSystemVersion`: force initialization; a failed query makes
every check false; otherwise compare the cached triple against the requested
one under the packed encoding.  Returns the updated globals and the result. -/
def isAtLeastSystemVersionImpl (query : Option (Nat × Nat × Nat))
    (s : VersionState) (major minor patch : Nat) : VersionState × Bool :=
  let s1 := initializeSystemVersion query s
  if s1.osver_failure then (s1, false)
  else if osverToNum s1.osver.dwMajorVersion s1.osver.dwMinorVersion
      s1.osver.wServicePackMajor < osverToNum major minor patch then
    (s1, false)
  else (s1, true)

/-- Public `isAtLeastSystemVersion(major, minor, patch)`. -/
def isAtLeastSystemVersion (query : Option (Nat × Nat × Nat))
    (s : VersionState) (major minor patch : Nat) : VersionState × Bool :=
  isAtLeastSystemVersionImpl query s major minor patch

/-- `getSystemVersion`: force initialization; on failure assign the XP
sentinel `(5, 1, 0)` to the out-parameters — and then, exactly as the source
does, unconditionally overwrite them with the cached struct fields.  `out0`
models the callers' variables before the call. -/
def getSystemVersion (query : Option (Nat × Nat × Nat)) (s : VersionState)
    (out0 : Nat × Nat × Nat) : VersionState × (Nat × Nat × Nat) :=
  let s1 := initializeSystemVersion query s
  -- "default to XP"
  let _out1 := if s1.osver_failure then ((5, 1, 0) : Nat × Nat × Nat) else out0
  -- the source then unconditionally overwrites the out-parameters:
  (s1, (s1.osver.dwMajorVersion, s1.osver.dwMinorVersion,
        s1.osver.wServicePackMajor))

/-- `isWindows8OrHigher()` = `isAtLeastSystemVersion<6, 2, 0>()`. -/
def isWindows8OrHigher (query : Option (Nat × Nat × Nat))
    (s : VersionState) : VersionState × Bool :=
  isAtLeastSystemVersionImpl query s 6 2 0

/-!
DPI resolution pipeline.  A `Monitor` collects everything the platform tells
the source about one display device: whether `GetMonitorInfo` succeeds, the
device name, the outcome of the dynamically resolved `GetDpiForMonitor` call
(`dpiQueryOk` models `SUCCEEDED(...)`, `dpiX`/`dpiY` the values it writes),
whether `CreateDC` on the device name succeeds, and the `GetDeviceCaps`
logical DPI of that device context.
-/

/-- `QDpi` = `QPair<qreal, qreal>`.  All DPI values the source handles are
nonnegative integers (`UINT` from `GetDpiForMonitor`, `int` from
`GetDeviceCaps`), so the pair is modelled over `Nat`. -/
abbrev QDpi := Nat × Nat

/-- Platform-provided data about one display device. -/
structure Monitor where
  infoOk : Bool
  szDevice : String
  dpiQueryOk : Bool
  dpiX : Nat
  dpiY : Nat
  dcOk : Bool
  logPixelsX : Nat
  logPixelsY : Nat
deriving Repr, DecidableEq

/-- `monitorDPI`: call the resolved `GetDpiForMonitor`; on success return the
written pair, otherwise `(0, 0)`. -/
def monitorDPI (m : Monitor) : QDpi :=
  if m.dpiQueryOk then (m.dpiX, m.dpiY) else (0, 0)

/-- `deviceDPI`: `GetDeviceCaps(hdc, LOGPIXELSX/Y)` of the device context. -/
def deviceDPI (m : Monitor) : QDpi :=
  (m.logPixelsX, m.logPixelsY)

/-- `monitorData`: resolve one monitor's DPI.  `none` models returning
`false` without writing `*dpi_out`; `some d` models writing `d` and
returning `true`.  Steps: monitor info must be readable; the `"WinDisc"`
pseudo-monitor is excluded; then the per-monitor DPI query is used if its x
value is nonzero, else the device-context fallback if a DC can be opened. -/
def monitorData (m : Monitor) : Option QDpi :=
  if !m.infoOk then none
  else if m.szDevice == "WinDisc" then none
  else
    let dpi := monitorDPI m
    if dpi.1 != 0 then some dpi
    else if m.dcOk then some (deviceDPI m)
    else none

/-- `monitorEnumCallback`: the `EnumDisplayMonitors` visitor.  Returns
(continue?, dpi variable after the visit): on a successful `monitorData` the
dpi variable is overwritten and enumeration stops (`false` = stop). -/
def monitorEnumCallback (m : Monitor) (d : QDpi) : Bool × QDpi :=
  match monitorData m with
  | some d1 => (false, d1)
  | none => (true, d)

/-- `EnumDisplayMonitors`: visit the attached monitors in order, stopping as
soon as the callback returns `false`; yields the final value of the dpi
variable the callback writes through. -/
def enumDisplayMonitors (ms : List Monitor) (d : QDpi) : QDpi :=
  match ms with
  | [] => d
  | m :: rest =>
    let r := monitorEnumCallback m d
    if r.1 then enumDisplayMonitors rest r.2 else r.2

/-- `readDPI`: enumerate, then report success iff the stored x-DPI is
nonzero; also yields the final dpi variable (`dpi0` is its value at the call
site — the orchestrator passes a default-constructed `(0, 0)`). -/
def readDPI (ms : List Monitor) (dpi0 : QDpi) : Bool × QDpi :=
  let d := enumDisplayMonitors ms dpi0
  (d.1 != 0, d)

/-!
Scale-factor formatting.  The source computes `dpi.first / 96.0` as a
`double` and renders it with `QString::number`, i.e. `%g` with 6 significant
digits, trailing zeros stripped, `'.'` as decimal separator, no locale
grouping.  The embedding abstracts the floating-point division as exact
rational arithmetic on `dpiX / 96` and renders that rational with the same
6-significant-digit, round-half-even, fixed-notation rule; for the DPI
values the feature targets (multiples of 24, factors ≥ 1 with few digits)
the double quotient is exact and the two renderings agree.
-/

/-- Quotient of `num / den` rounded half-to-even. -/
def roundHalfEvenDiv (num den : Nat) : Nat :=
  let q := num / den
  let r := num % den
  if den < 2 * r then q + 1
  else if 2 * r < den then q
  else if q % 2 = 1 then q + 1 else q

/-- Drop trailing `'0'` characters (QString::number strips them). -/
def stripTrailingZeroChars (s : String) : String :=
  String.mk ((s.toList.reverse.dropWhile (fun ch => ch == '0')).reverse)

/-- Left-pad with `'0'` to length `p` (fractional digits). -/
def padZerosTo (s : String) (p : Nat) : String :=
  String.mk (List.replicate (p - s.length) '0') ++ s

/-- `QString::number(dpiX / 96.0)`: 6 significant digits in fixed notation,
trailing zeros stripped (see the module note on the floating-point
abstraction). -/
def formatFactor (dpiX : Nat) : String :=
  let intDigits := (toString (dpiX / 96)).length
  if 6 ≤ intDigits then toString (roundHalfEvenDiv dpiX 96)
  else
    let p := 6 - intDigits
    let scaled := roundHalfEvenDiv (dpiX * 10 ^ p) 96
    let ip := scaled / 10 ^ p
    let fp := scaled % 10 ^ p
    if fp = 0 then toString ip
    else toString ip ++ "." ++ stripTrailingZeroChars (padZerosTo (toString fp) p)

/-!
The orchestrator `fixQtHDPINonIntegerScaling`.  Its external inputs: the
environment (`qgetenv` of the two Qt variables; the empty string models both
"unset" and "set to empty", which `isEmpty` does not distinguish), whether
`QLibrary::resolve` finds `GetDpiForMonitor` in SHCore and
`SetProcessDPIAware` in user32, the (ignored) return value of
`SetProcessDPIAware()`, and the attached monitors.
-/

/-- The two environment variables the function reads and writes. -/
structure Env where
  qtScaleFactor : String
  qtAutoScreenScaleFactor : String
deriving Repr, DecidableEq

/-- External inputs of one `fixQtHDPINonIntegerScaling` invocation. -/
structure World where
  env : Env
  hasGetDpiForMonitor : Bool
  hasSetProcessDPIAware : Bool
  setProcessDPIAwareResult : Bool
  monitors : List Monitor
deriving Repr, DecidableEq

/-- `fixQtHDPINonIntegerScaling`: the linear gate chain of the source.
Returns the version-cache state after its `isWindows8OrHigher()` call, the
environment after the call, and the `bool` return value. -/
def fixQtHDPINonIntegerScaling (query : Option (Nat × Nat × Nat))
    (vs : VersionState) (w : World) : VersionState × Env × Bool :=
  let r := isWindows8OrHigher query vs
  -- Only do this on win8/win10
  if !r.2 then (r.1, w.env, false)
  -- Don't overwrite the user specified scaling factors
  else if !(w.env.qtScaleFactor == "") then (r.1, w.env, true)
  else if !(w.env.qtAutoScreenScaleFactor == "") then (r.1, w.env, true)
  -- resolve GetDpiForMonitor (SHCore) and SetProcessDPIAware (user32)
  else if !w.hasGetDpiForMonitor then (r.1, w.env, false)
  else if !w.hasSetProcessDPIAware then (r.1, w.env, false)
  else
    -- `if (!setProcessDPIAware()) { }` — result observed, then discarded
    let _spda := w.setProcessDPIAwareResult
    let rd := readDPI w.monitors (0, 0)
    if !rd.1 then (r.1, w.env, false)
    else if rd.2.1 ≤ 96 then (r.1, w.env, false)
    else
      (r.1, { w.env with qtScaleFactor := formatFactor rd.2.1 }, true)

/-- Modelled from the spec's words, for the refinement claim about the
version order: tuple lexicographic `(a, b, c) ≥ (a2, b2, c2)`, to be compared
with the packed-integer order `osverToNum` used by the source. -/
def tupleLexGE (a b c a2 b2 c2 : Nat) : Bool :=
  decide (a2 < a ∨ (a2 = a ∧ (b2 < b ∨ (b2 = b ∧ c2 ≤ c))))

/-- A physical monitor whose per-monitor DPI query reports 144 DPI. -/
def monitor144 : Monitor :=
  { infoOk := true, szDevice := "DISPLAY1", dpiQueryOk := true,
    dpiX := 144, dpiY := 144, dcOk := true,
    logPixelsX := 96, logPixelsY := 96 }

/-- The `"WinDisc"` pseudo-monitor, with every probe otherwise succeeding. -/
def monitorWinDisc : Monitor :=
  { infoOk := true, szDevice := "WinDisc", dpiQueryOk := true,
    dpiX := 144, dpiY := 144, dcOk := true,
    logPixelsX := 96, logPixelsY := 96 }

/-- A monitor whose per-monitor DPI query fails and whose device-context
fallback reports a zero horizontal logical DPI. -/
def monitorZeroFallback : Monitor :=
  { infoOk := true, szDevice := "DISPLAY1", dpiQueryOk := false,
    dpiX := 0, dpiY := 0, dcOk := true,
    logPixelsX := 0, logPixelsY := 90 }

/-- World with a user-set `QT_SCALE_FACTOR` override. -/
def worldOverride : World :=
  { env := { qtScaleFactor := "2", qtAutoScreenScaleFactor := "" },
    hasGetDpiForMonitor := true, hasSetProcessDPIAware := true,
    setProcessDPIAwareResult := true, monitors := [monitor144] }

/-- World with no override and a missing `GetDpiForMonitor` capability. -/
def worldNoCapability : World :=
  { env := { qtScaleFactor := "", qtAutoScreenScaleFactor := "" },
    hasGetDpiForMonitor := false, hasSetProcessDPIAware := true,
    setProcessDPIAwareResult := true, monitors := [monitor144] }

/-- World with no override, both capabilities, and one 144-DPI monitor. -/
def world144 : World :=
  { env := { qtScaleFactor := "", qtAutoScreenScaleFactor := "" },
    hasGetDpiForMonitor := true, hasSetProcessDPIAware := true,
    setProcessDPIAwareResult := true, monitors := [monitor144] }

/-!
Theorems.  Helper lemmas first, then one theorem per claim.
-/

/-- After any first initialization from the process-start state, the size
field is stamped, so the cache counts as initialized. -/
theorem isInitialized_after_first (q : Option (Nat × Nat × Nat)) :
    isInitializedSystemVersion (initializeSystemVersion q initState) = true := by
  cases q with
  | none => rfl
  | some t => rfl

/-- Initializing an already-initialized cache is the identity. -/
theorem initializeSystemVersion_of_initialized (q : Option (Nat × Nat × Nat))
    (s : VersionState) (h : isInitializedSystemVersion s = true) :
    initializeSystemVersion q s = s := by
  simp [initializeSystemVersion, h]

/-- Initializing the process-start state with a successful query caches
exactly the queried triple and records no failure. -/
theorem initializeSystemVersion_some (M m sp : Nat) :
    initializeSystemVersion (some (M, m, sp)) initState =
      { osver := { dwOSVersionInfoSize := sizeofOSVERSIONINFOEX,
                   dwMajorVersion := M, dwMinorVersion := m,
                   wServicePackMajor := sp },
        osver_failure := false } := rfl

/-- Claim C1: after a failed OS query, `getSystemVersion` is claimed to
return the fallback sentinel `(5, 1, 0)` to its callers on every subsequent
call.  The code instead returns the zeroed struct `(0, 0, 0)`: the sentinel
assignment to the out-parameters is unconditionally overwritten by the
cached (zero) struct fields, on the first call and on every later one. -/
theorem C1_getSystemVersion_sentinel_never_delivered :
    (getSystemVersion none initState (7, 7, 7)).2 = (0, 0, 0) ∧
    (getSystemVersion none initState (7, 7, 7)).1.osver_failure = true ∧
    (getSystemVersion (some (6, 2, 0)) (getSystemVersion none initState (7, 7, 7)).1
        (7, 7, 7)).2 = (0, 0, 0) ∧
    ((0, 0, 0) : Nat × Nat × Nat) ≠ (5, 1, 0) := by
  refine ⟨rfl, rfl, rfl, by decide⟩

/-- Claim C2: if the OS version query failed, `isAtLeastSystemVersion`
returns false for every requested triple. -/
theorem C2_isAtLeast_false_on_failure (query : Option (Nat × Nat × Nat))
    (s : VersionState) (major minor patch : Nat)
    (h : (initializeSystemVersion query s).osver_failure = true) :
    (isAtLeastSystemVersion query s major minor patch).2 = false := by
  simp [isAtLeastSystemVersion, isAtLeastSystemVersionImpl, h]

/-- Witness for C2: the failed query from the start state. -/
theorem C2_witness :
    (initializeSystemVersion none initState).osver_failure = true ∧
    (isAtLeastSystemVersion none initState 5 1 0).2 = false :=
  ⟨by decide, C2_isAtLeast_false_on_failure none initState 5 1 0 (by decide)⟩

/-- Claim C3: with a successfully cached triple `(M, m, sp)`,
`isAtLeastSystemVersion` returns true exactly for the requested triples that
are ≤ the cached one under the packed-integer order, and in particular it is
boundary-inclusive at the cached triple itself. -/
theorem C3_isAtLeast_packed_order (M m sp a b c : Nat) :
    ((isAtLeastSystemVersion (some (M, m, sp)) initState a b c).2 = true ↔
      osverToNum a b c ≤ osverToNum M m sp) ∧
    (isAtLeastSystemVersion (some (M, m, sp)) initState M m sp).2 = true := by
  have key : ∀ a b c : Nat,
      (isAtLeastSystemVersion (some (M, m, sp)) initState a b c).2 = true ↔
        osverToNum a b c ≤ osverToNum M m sp := by
    intro a b c
    simp only [isAtLeastSystemVersion, isAtLeastSystemVersionImpl,
      initializeSystemVersion_some]
    split
    · simp_all
    · split <;> simp_all
  exact ⟨key a b c, (key M m sp).2 le_rfl⟩

/-- Claim C4: for component values below `2 ^ 10`, the packed-integer
comparison used by the source agrees with lexicographic comparison of the
triples. -/
theorem C4_packed_matches_lex (a b c a2 b2 c2 : Nat)
    (ha : a < 2 ^ 10) (hb : b < 2 ^ 10) (hc : c < 2 ^ 10)
    (ha2 : a2 < 2 ^ 10) (hb2 : b2 < 2 ^ 10) (hc2 : c2 < 2 ^ 10) :
    (osverToNum a2 b2 c2 ≤ osverToNum a b c) ↔
      tupleLexGE a b c a2 b2 c2 = true := by
  have e : ∀ x y z : Nat, x < 2 ^ 10 → y < 2 ^ 10 → z < 2 ^ 10 →
      osverToNum x y z = x * 2 ^ 20 + y * 2 ^ 10 + z := by
    intro x y z hx hy hz
    apply Nat.mod_eq_of_lt
    norm_num at hx hy hz ⊢
    omega
  rw [e a b c ha hb hc, e a2 b2 c2 ha2 hb2 hc2]
  simp only [tupleLexGE, decide_eq_true_eq]
  norm_num at ha hb hc ha2 hb2 hc2 ⊢
  omega

/-- Witness for C4: `(6, 2, 1)` against `(6, 1, 5)`. -/
theorem C4_witness :
    ((6 : Nat) < 2 ^ 10 ∧ (2 : Nat) < 2 ^ 10 ∧ (1 : Nat) < 2 ^ 10 ∧
      (5 : Nat) < 2 ^ 10) ∧
    ((osverToNum 6 1 5 ≤ osverToNum 6 2 1) ↔ tupleLexGE 6 2 1 6 1 5 = true) :=
  ⟨by decide,
   C4_packed_matches_lex 6 2 1 6 1 5 (by decide) (by decide) (by decide)
     (by decide) (by decide) (by decide)⟩

/-- Claim C5: when the Windows-8 gate passes and either Qt scaling
environment variable is already non-empty, the orchestrator returns true
("already handled") and the environment comes back exactly as it went in. -/
theorem C5_user_override_gate (query : Option (Nat × Nat × Nat))
    (vs : VersionState) (w : World)
    (hwin : (isWindows8OrHigher query vs).2 = true)
    (hset : w.env.qtScaleFactor ≠ "" ∨ w.env.qtAutoScreenScaleFactor ≠ "") :
    (fixQtHDPINonIntegerScaling query vs w).2.1 = w.env ∧
    (fixQtHDPINonIntegerScaling query vs w).2.2 = true := by
  by_cases hq : w.env.qtScaleFactor = ""
  · rcases hset with hset | hset
    · exact absurd hq hset
    · simp [fixQtHDPINonIntegerScaling, hwin, hq, hset]
  · simp [fixQtHDPINonIntegerScaling, hwin, hq]

/-- Witness for C5: Windows 10, `QT_SCALE_FACTOR` preset to `"2"`. -/
theorem C5_witness :
    (isWindows8OrHigher (some (10, 0, 0)) initState).2 = true ∧
    worldOverride.env.qtScaleFactor ≠ "" ∧
    (fixQtHDPINonIntegerScaling (some (10, 0, 0)) initState worldOverride).2.1 =
      worldOverride.env ∧
    (fixQtHDPINonIntegerScaling (some (10, 0, 0)) initState worldOverride).2.2 =
      true := by
  refine ⟨by decide, by decide, ?_, ?_⟩
  · exact (C5_user_override_gate (some (10, 0, 0)) initState worldOverride
      (by decide) (Or.inl (by decide))).1
  · exact (C5_user_override_gate (some (10, 0, 0)) initState worldOverride
      (by decide) (Or.inl (by decide))).2

/-- Claim C6: when the Windows-8 gate passes, no override is set, and either
dynamic capability fails to resolve, the orchestrator returns false ("not
applicable"), the environment is unchanged, and the result does not depend
on the attached monitors — no display enumeration is consulted. -/
theorem C6_capability_gate (query : Option (Nat × Nat × Nat))
    (vs : VersionState) (w : World)
    (hwin : (isWindows8OrHigher query vs).2 = true)
    (h1 : w.env.qtScaleFactor = "") (h2 : w.env.qtAutoScreenScaleFactor = "")
    (hcap : w.hasGetDpiForMonitor = false ∨ w.hasSetProcessDPIAware = false) :
    (fixQtHDPINonIntegerScaling query vs w).2.1 = w.env ∧
    (fixQtHDPINonIntegerScaling query vs w).2.2 = false ∧
    ∀ ms : List Monitor,
      fixQtHDPINonIntegerScaling query vs { w with monitors := ms } =
        fixQtHDPINonIntegerScaling query vs w := by
  rcases hcap with hcap | hcap <;>
    exact ⟨by simp [fixQtHDPINonIntegerScaling, hwin, h1, h2, hcap],
           by simp [fixQtHDPINonIntegerScaling, hwin, h1, h2, hcap],
           fun ms => by simp [fixQtHDPINonIntegerScaling, hwin, h1, h2, hcap]⟩

/-- Witness for C6: Windows 10, clean environment, `GetDpiForMonitor`
unresolved, one otherwise usable 144-DPI monitor attached. -/
theorem C6_witness :
    (isWindows8OrHigher (some (10, 0, 0)) initState).2 = true ∧
    worldNoCapability.env.qtScaleFactor = "" ∧
    worldNoCapability.env.qtAutoScreenScaleFactor = "" ∧
    worldNoCapability.hasGetDpiForMonitor = false ∧
    (fixQtHDPINonIntegerScaling (some (10, 0, 0)) initState
        worldNoCapability).2.1 = worldNoCapability.env ∧
    (fixQtHDPINonIntegerScaling (some (10, 0, 0)) initState
        worldNoCapability).2.2 = false ∧
    fixQtHDPINonIntegerScaling (some (10, 0, 0)) initState
        { worldNoCapability with monitors := [] } =
      fixQtHDPINonIntegerScaling (some (10, 0, 0)) initState
        worldNoCapability := by
  have h := C6_capability_gate (some (10, 0, 0)) initState worldNoCapability
    (by decide) (by decide) (by decide) (Or.inl (by decide))
  exact ⟨by decide, by decide, by decide, by decide, h.1, h.2.1, h.2.2 []⟩

/-- Claim C7: once every earlier gate has passed and display enumeration
resolved a DPI, the orchestrator mutates the environment iff the horizontal
DPI is strictly above 96: at or below 96 it returns false with the
environment untouched, above 96 it returns true with `QT_SCALE_FACTOR` set
to the decimal rendering of `dpiX / 96` (and the other variable untouched);
144 renders as `"1.5"` and 192 as `"2"`. -/
theorem C7_threshold_and_publish (query : Option (Nat × Nat × Nat))
    (vs : VersionState) (w : World)
    (hwin : (isWindows8OrHigher query vs).2 = true)
    (h1 : w.env.qtScaleFactor = "") (h2 : w.env.qtAutoScreenScaleFactor = "")
    (hc1 : w.hasGetDpiForMonitor = true) (hc2 : w.hasSetProcessDPIAware = true)
    (hdpi : (readDPI w.monitors (0, 0)).1 = true) :
    ((readDPI w.monitors (0, 0)).2.1 ≤ 96 →
      (fixQtHDPINonIntegerScaling query vs w).2.1 = w.env ∧
      (fixQtHDPINonIntegerScaling query vs w).2.2 = false) ∧
    (96 < (readDPI w.monitors (0, 0)).2.1 →
      (fixQtHDPINonIntegerScaling query vs w).2.1 =
        { w.env with
          qtScaleFactor := formatFactor (readDPI w.monitors (0, 0)).2.1 } ∧
      (fixQtHDPINonIntegerScaling query vs w).2.2 = true) ∧
    formatFactor 144 = "1.5" ∧ formatFactor 192 = "2" := by
  have hdpi0 : (readDPI w.monitors 0).1 = true := hdpi
  refine ⟨fun hle => ?_, fun hgt => ?_, by decide, by decide⟩
  · have hle0 : (readDPI w.monitors 0).2.1 ≤ 96 := hle
    constructor <;>
      simp [fixQtHDPINonIntegerScaling, hwin, h1, h2, hc1, hc2, hdpi0, hle0]
  · have hgt0 : ¬ (readDPI w.monitors 0).2.1 ≤ 96 := by
      have : 96 < (readDPI w.monitors 0).2.1 := hgt
      omega
    constructor <;>
      simp [fixQtHDPINonIntegerScaling, hwin, h1, h2, hc1, hc2, hdpi0, hgt0]

/-- Witness for C7: Windows 10, clean environment, both capabilities, one
144-DPI monitor; the published value is `"1.5"`. -/
theorem C7_witness :
    (isWindows8OrHigher (some (10, 0, 0)) initState).2 = true ∧
    (readDPI world144.monitors (0, 0)).1 = true ∧
    96 < (readDPI world144.monitors (0, 0)).2.1 ∧
    (fixQtHDPINonIntegerScaling (some (10, 0, 0)) initState world144).2.1 =
      { world144.env with qtScaleFactor := formatFactor 144 } ∧
    (fixQtHDPINonIntegerScaling (some (10, 0, 0)) initState world144).2.2 =
      true ∧
    formatFactor 144 = "1.5" := by
  have h := C7_threshold_and_publish (some (10, 0, 0)) initState world144
    (by decide) (by decide) (by decide) (by decide) (by decide) (by decide)
  have h144 : (readDPI world144.monitors (0, 0)).2.1 = 144 := by decide
  refine ⟨by decide, by decide, by decide, ?_, ?_, by decide⟩
  · have := (h.2.1 (by decide)).1
    rwa [h144] at this
  · exact (h.2.1 (by decide)).2

/-- Claim C8: a monitor named `"WinDisc"` never contributes a DPI value, and
if it is the only enumerated monitor, `readDPI` reports no DPI at all. -/
theorem C8_windisc_excluded (m : Monitor) (h : m.szDevice = "WinDisc") :
    monitorData m = none ∧ (readDPI [m] (0, 0)).1 = false := by
  have hm : monitorData m = none := by simp [monitorData, h]
  exact ⟨hm, by simp [readDPI, enumDisplayMonitors, monitorEnumCallback, hm]⟩

/-- Witness for C8: the `"WinDisc"` pseudo-monitor with every probe
otherwise succeeding. -/
theorem C8_witness :
    monitorWinDisc.szDevice = "WinDisc" ∧
    monitorData monitorWinDisc = none ∧
    (readDPI [monitorWinDisc] (0, 0)).1 = false :=
  ⟨rfl, (C8_windisc_excluded monitorWinDisc rfl).1,
    (C8_windisc_excluded monitorWinDisc rfl).2⟩

/-- Claim C9: the version cache is initialized at most once: after any first
call, re-initialization with any later query result is the identity on the
cache and the failure flag, and `getSystemVersion` and
`isAtLeastSystemVersion` leave that state untouched — including when the
first query failed (`q1 = none`). -/
theorem C9_cache_initialized_once (q1 q2 : Option (Nat × Nat × Nat))
    (a b c : Nat) (out : Nat × Nat × Nat) :
    initializeSystemVersion q2 (initializeSystemVersion q1 initState) =
      initializeSystemVersion q1 initState ∧
    (getSystemVersion q2 (initializeSystemVersion q1 initState) out).1 =
      initializeSystemVersion q1 initState ∧
    (isAtLeastSystemVersion q2 (initializeSystemVersion q1 initState) a b c).1 =
      initializeSystemVersion q1 initState := by
  have h : initializeSystemVersion q2 (initializeSystemVersion q1 initState) =
      initializeSystemVersion q1 initState :=
    initializeSystemVersion_of_initialized q2 _ (isInitialized_after_first q1)
  refine ⟨h, ?_, ?_⟩
  · simp [getSystemVersion, h]
  · simp only [isAtLeastSystemVersion, isAtLeastSystemVersionImpl, h]
    split
    · rfl
    · split <;> rfl

/-- Claim C10: a monitor that passes the info and name checks, whose
per-monitor DPI query yields a zero x value, but whose device context opens
with a zero horizontal logical DPI, still counts as a success for the
enumeration callback: enumeration stops there no matter what monitors
follow, and `readDPI` nevertheless reports failure because the stored x-DPI
is zero. -/
theorem C10_stop_on_zero_fallback (m : Monitor) (rest : List Monitor)
    (hinfo : m.infoOk = true) (hname : ¬ m.szDevice = "WinDisc")
    (hq : (monitorDPI m).1 = 0) (hdc : m.dcOk = true)
    (hlx : m.logPixelsX = 0) :
    monitorData m = some (0, m.logPixelsY) ∧
    enumDisplayMonitors (m :: rest) (0, 0) = (0, m.logPixelsY) ∧
    (readDPI (m :: rest) (0, 0)).1 = false := by
  have hm : monitorData m = some (0, m.logPixelsY) := by
    simp [monitorData, hinfo, hname, hq, hdc, deviceDPI, hlx]
  have he : enumDisplayMonitors (m :: rest) (0, 0) = (0, m.logPixelsY) := by
    simp [enumDisplayMonitors, monitorEnumCallback, hm]
  have he0 : enumDisplayMonitors (m :: rest) 0 = (0, m.logPixelsY) := he
  exact ⟨hm, he, by simp [readDPI, he0]⟩

/-- Witness for C10: the zero-fallback monitor followed by a healthy
144-DPI monitor that is never consulted. -/
theorem C10_witness :
    monitorZeroFallback.infoOk = true ∧
    ¬ monitorZeroFallback.szDevice = "WinDisc" ∧
    (monitorDPI monitorZeroFallback).1 = 0 ∧
    monitorZeroFallback.dcOk = true ∧
    monitorZeroFallback.logPixelsX = 0 ∧
    enumDisplayMonitors [monitorZeroFallback, monitor144] (0, 0) = (0, 90) ∧
    (readDPI [monitorZeroFallback, monitor144] (0, 0)).1 = false := by
  have h := C10_stop_on_zero_fallback monitorZeroFallback [monitor144]
    (by decide) (by decide) (by decide) (by decide) (by decide)
  exact ⟨by decide, by decide, by decide, by decide, by decide,
    h.2.1, h.2.2⟩

end UtilsWin
end SeafileClient
